import Mathlib

/-!
Verification development for the doc2book task orchestration and recovery
engine (FastAPI backend).  The definitions below are a shallow embedding of
`apps/api/routers/tasks.py`, `apps/api/routers/translations.py` and
`apps/api/main.py`: database rows become Lean structures, the task store
becomes explicit state passing, timestamps become integers (minutes), and
the external processing collaborator becomes an oracle environment.  The
processor client never raises (every call catches exceptions and returns a
`success = false` payload), so the parse handler is modelled as a total
function; the only concurrent interference modelled is the cancel endpoint,
observed through `db.refresh` between work items.
-/

namespace Doc2Book

/-- TaskStatus enum of `models/__init__.py`. -/
inductive TaskStatus
  | pending
  | running
  | completed
  | failed
  | cancelled
deriving DecidableEq, Repr

/-- TaskType enum of `models/__init__.py` (`structure` is a Lean keyword, so
that stage is named `struct` here). -/
inductive TaskType
  | parse
  | clean
  | understand
  | struct
  | create
  | translate
  | generate
deriving DecidableEq, Repr

/-- Python `x or d` coalescing on an optional integer column: `None` and `0`
both fall back to the default, as in `task.max_retries or 3`. -/
def pyOrNat (v : Option Nat) (d : Nat) : Nat :=
  match v with
  | none => d
  | some n => if n = 0 then d else n

/-- Python truthiness of an optional string column (`None` and the empty
string are falsy), as in `if service_available and doc.file_path`. -/
def pyTruthyStr (s : Option String) : Bool :=
  match s with
  | none => false
  | some v => v ≠ ""

/-- Task row of `models/__init__.py`.  `result_data` and `checkpoint_data`
are opaque JSON payloads never written by the parse pipeline modelled here,
kept as an optional opaque string.  Timestamps are integers (minutes). -/
structure Task where
  id : String
  project_id : String
  task_type : TaskType
  status : TaskStatus
  progress : Nat
  message : String
  created_at : Int
  started_at : Option Int
  completed_at : Option Int
  error : Option String
  result_data : Option String
  retry_count : Nat
  max_retries : Option Nat
  last_heartbeat : Option Int
deriving DecidableEq, Repr

/-- Project row (the fields used by the task and translation routers). -/
structure Project where
  id : String
  name : String
  description : Option String
  current_stage : String
  updated_at : Int
deriving DecidableEq, Repr

/-- Parsed-content payload written by `run_parse_task` into
`doc.parsed_content`: the service result (`ast`/`metadata`), the recorded
per-document failure, or the basic fallback mode. -/
inductive ParsedContent
  | parsed (ast metadata : String)
  | parseFailed (error : String)
  | basicMode (title : String)
deriving DecidableEq, Repr

/-- Document row (the fields used by `run_parse_task`). -/
structure Document where
  id : String
  project_id : String
  original_filename : String
  format : Option String
  file_path : Option String
  status : String
  parsed_content : Option ParsedContent
deriving DecidableEq, Repr

/-- AUTO_TASK_SEQUENCE merged with POST_REVIEW_SEQUENCE (`TASK_SEQUENCE` in
`routers/tasks.py`): the next task type after a completed one, `none` for
the pause points (`create`, `generate`). -/
def TASK_SEQUENCE : TaskType → Option TaskType
  | TaskType.parse => some TaskType.clean
  | TaskType.clean => some TaskType.understand
  | TaskType.understand => some TaskType.struct
  | TaskType.struct => some TaskType.create
  | TaskType.create => none
  | TaskType.translate => some TaskType.generate
  | TaskType.generate => none

/-- TASK_TO_STAGE map of `routers/tasks.py`. -/
def TASK_TO_STAGE : TaskType → String
  | TaskType.parse => "parse"
  | TaskType.clean => "clean"
  | TaskType.understand => "understand"
  | TaskType.struct => "structure"
  | TaskType.create => "create"
  | TaskType.translate => "translate"
  | TaskType.generate => "generate"

/-- Project-stage update performed by `run_task` after a task completes
(`routers/tasks.py` lines 126-138): the new stage is looked up from the
completed task's type alone; `create` pauses at `review`, `generate` (and
the unreachable default) go to `completed`. -/
def advanceProjectStage (ty : TaskType) (now : Int) (p : Project) : Project :=
  match TASK_SEQUENCE ty with
  | some next => { p with current_stage := TASK_TO_STAGE next, updated_at := now }
  | none =>
    if ty = TaskType.create then
      { p with current_stage := "review", updated_at := now }
    else if ty = TaskType.generate then
      { p with current_stage := "completed", updated_at := now }
    else
      { p with current_stage := "completed", updated_at := now }

/-- Stage the project is put in after a task of the given type completes;
this is the table the amended stage claim is checked against. -/
def stageAfterCompletion : TaskType → String
  | TaskType.parse => "clean"
  | TaskType.clean => "understand"
  | TaskType.understand => "structure"
  | TaskType.struct => "create"
  | TaskType.create => "review"
  | TaskType.translate => "generate"
  | TaskType.generate => "completed"

/-- Start phase of `run_task` (lines 85-89): the loaded task is moved to
`running` with `started_at` and `last_heartbeat` stamped.  The source
performs no status check before this write. -/
def runTaskStart (now : Int) (t : Task) : Task :=
  { t with status := TaskStatus.running, started_at := some now,
           last_heartbeat := some now }

/-- Effect of the cancel endpoint (`cancel_task`, lines 873-875) as seen by
a later `db.refresh(task)` inside a handler: status `cancelled`, message
「已取消」, `completed_at` stamped with the cancel time. -/
def applyCancel (cancel_time : Int) (t : Task) : Task :=
  { t with status := TaskStatus.cancelled, message := "已取消",
           completed_at := some cancel_time }

/-- Whether the per-unit status re-read before document `i` observes the
cancel request (the request landed before that refresh). -/
def cancelObserved (cancelFrom : Option Nat) (i : Nat) : Bool :=
  match cancelFrom with
  | none => false
  | some k => k ≤ i

/-- Environment of one parse run: health-check outcome, the per-document
result of `processor_client.parse_document` (which never raises), and the
cancel interference schedule. -/
structure ParseEnv where
  service_available : Bool
  parse_success : Nat → Bool
  parse_ast : Nat → String
  parse_metadata : Nat → String
  parse_error : Nat → String
  cancelFrom : Option Nat
  cancel_time : Int

/-- Per-document body of the parse loop (lines 181-213): real parse when the
service is up and the document has a (truthy) file path, recorded failure
when the service reports one, basic fallback otherwise. -/
def processParseDoc (env : ParseEnv) (i : Nat) (doc : Document) : Document :=
  if env.service_available && pyTruthyStr doc.file_path then
    if env.parse_success i then
      { doc with
          parsed_content := some (ParsedContent.parsed (env.parse_ast i) (env.parse_metadata i)),
          status := "parsed" }
    else
      { doc with
          parsed_content := some (ParsedContent.parseFailed (env.parse_error i)),
          status := "parse_failed" }
  else
    { doc with
        parsed_content := some (ParsedContent.basicMode doc.original_filename),
        status := "parsed" }

/-- Document loop of `run_parse_task` (lines 171-217).  Before each unit the
task is refreshed; observing `cancelled` returns immediately, leaving the
remaining documents untouched.  Progress is `int((i / total) * 100)`
(embedded as exact integer division); the trailing `progress = 100` write
only happens when the loop runs to completion.  The loop never touches
`last_heartbeat`. -/
def parseLoop (env : ParseEnv) (total : Nat) : Nat → Task → List Document → Task × List Document
  | _, task, [] => ({ task with progress := 100 }, [])
  | i, task, doc :: rest =>
    if cancelObserved env.cancelFrom i then
      (applyCancel env.cancel_time task, doc :: rest)
    else
      let task1 := { task with progress := i * 100 / total,
                               message := "正在解析: " ++ doc.original_filename }
      let doc1 := processParseDoc env i doc
      let res := parseLoop env total (i + 1) task1 rest
      (res.1, doc1 :: res.2)

/-- run_parse_task (lines 155-217): empty projects short-circuit with a
message; otherwise an availability warning may be recorded and the document
loop runs. -/
def run_parse_task (env : ParseEnv) (task : Task) (docs : List Document) : Task × List Document :=
  if docs.length = 0 then
    ({ task with message := "没有文档需要解析" }, docs)
  else
    let task0 := if env.service_available then task
                 else { task with message := "警告: 处理服务未启动，使用基础解析模式" }
    parseLoop env docs.length 0 task0 docs

/-- run_task (lines 72-152) specialised to a parse-type task (the only
handler branch the claims need; the parse handler is total, so the
exception branch at lines 142-149 is unreachable for it).  Loading a
missing id aborts; a loaded task is moved to `running` and, after the
handler returns, unconditionally finalised as `completed` with
`progress = 100` and the project stage advanced (lines 117-140).
`tstart` and `tend` are the `utcnow` readings of the two phases. -/
def run_task_parse (tstart tend : Int) (env : ParseEnv) (t : Option Task)
    (p : Option Project) (docs : List Document) :
    Option Task × Option Project × List Document :=
  match t with
  | none => (none, p, docs)
  | some task =>
    let task1 := runTaskStart tstart task
    let hres := run_parse_task env task1 docs
    let task2 := { hres.1 with
                   status := TaskStatus.completed
                   progress := 100
                   message := "处理完成"
                   completed_at := some tend
                   last_heartbeat := some tend }
    let p2 := match p with
      | some proj => some (advanceProjectStage TaskType.parse tend proj)
      | none => p
    (some task2, p2, hres.2)

/-- Staleness threshold of `recover_interrupted_tasks` (5 minutes). -/
def staleThresholdMinutes : Int := 5

/-- Heartbeat staleness test of `main.py` line 31: no heartbeat at all, or a
heartbeat strictly older than `now - 5` minutes. -/
def isStaleAt (now : Int) (hb : Option Int) : Bool :=
  match hb with
  | none => true
  | some t => t < now - staleThresholdMinutes

/-- Recovery message of `main.py` line 36. -/
def retryMessage (rc mx : Nat) : String :=
  "任务中断，自动重试 (" ++ toString rc ++ "/" ++ toString mx ++ ")"

/-- Per-task body of `recover_interrupted_tasks` (`main.py` lines 24-42):
only `running` tasks are examined; a stale one is re-queued as `pending`
with `retry_count` incremented while below `max_retries or 3`, and is
terminally failed (with `completed_at` stamped) otherwise. -/
def scanTask (now : Int) (t : Task) : Task :=
  if t.status = TaskStatus.running then
    if isStaleAt now t.last_heartbeat then
      if t.retry_count < pyOrNat t.max_retries 3 then
        { t with status := TaskStatus.pending,
                 retry_count := t.retry_count + 1,
                 message := retryMessage (t.retry_count + 1) (pyOrNat t.max_retries 3) }
      else
        { t with status := TaskStatus.failed,
                 error := some "任务多次中断，已达到最大重试次数",
                 completed_at := some now }
    else t
  else t

/-- recover_interrupted_tasks over the whole task store. -/
def recover_interrupted_tasks (now : Int) (tasks : List Task) : List Task :=
  tasks.map (scanTask now)

/-- HTTP error surface of the routers (404 / 400 with a detail string). -/
inductive ApiError
  | notFound (detail : String)
  | badRequest (detail : String)
deriving DecidableEq, Repr

/-- Reset message of the retry endpoint (`routers/tasks.py` line 921),
computed from the already-incremented count. -/
def retryResetMessage (rc : Nat) : String :=
  "手动重试 (第 " ++ toString rc ++ " 次)"

/-- retry_task endpoint (lines 900-931): legal only from `failed` or
`cancelled`; resets the task to `pending` with cleared error/progress and
timestamps, incrementing `retry_count` with no bound check. -/
def retry_task (t : Option Task) : Except ApiError Task :=
  match t with
  | none => Except.error (ApiError.notFound "任务不存在")
  | some task =>
    if task.status = TaskStatus.failed ∨ task.status = TaskStatus.cancelled then
      Except.ok { task with
        status := TaskStatus.pending,
        error := none,
        progress := 0,
        retry_count := task.retry_count + 1,
        message := retryResetMessage (task.retry_count + 1),
        started_at := none,
        completed_at := none }
    else
      Except.error (ApiError.badRequest "只能重试失败或已取消的任务")

/-- Chapter of a book draft: the JSON chapter object, of which the
translation path reads and overrides exactly `title` and `content`. -/
structure Chapter where
  title : String
  content : String
deriving DecidableEq, Repr

/-- BookDraft row (the fields used by the translation router; the opaque
table_of_contents / front_matter / back_matter payloads are carried as
optional opaque strings). -/
structure BookDraft where
  id : String
  project_id : String
  language : String
  version : Nat
  title : Option String
  subtitle : Option String
  author : Option String
  description : Option String
  table_of_contents : Option String
  chapters : List Chapter
  front_matter : Option String
  back_matter : Option String
  status : String
  is_primary : Bool
deriving DecidableEq, Repr

/-- TranslationJob row of `models/__init__.py`. -/
structure TranslationJob where
  id : String
  project_id : String
  source_draft_id : String
  target_language : String
  status : String
  progress : Nat
  provider : String
  preserve_formatting : Bool
  result_draft_id : Option String
  error : Option String
  created_at : Int
  completed_at : Option Int
deriving DecidableEq, Repr

/-- SUPPORTED_LANGUAGES keys of `routers/translations.py`. -/
def SUPPORTED_LANGUAGES : List String :=
  ["en", "ja", "ko", "de", "fr", "es", "pt", "it", "nl", "pl", "ru"]

/-- Non-terminal job statuses used by the duplicate check
(`status.in_(["pending", "running"])`). -/
def nonTerminalStatus (s : String) : Bool :=
  s = "pending" || s = "running"

/-- Predicate of the duplicate check in `create_translations` (lines
122-127): same project, same source draft, same target language, and in a
non-terminal status. -/
def inflightPred (pid sdid lang : String) (j : TranslationJob) : Bool :=
  (j.project_id == pid && j.source_draft_id == sdid && j.target_language == lang)
    && nonTerminalStatus j.status

/-- Number of in-flight jobs for one (project, source draft, language)
triple. -/
def inflightCount (jobs : List TranslationJob) (pid sdid lang : String) : Nat :=
  jobs.countP (inflightPred pid sdid lang)

/-- `.first()` presence test of the duplicate check. -/
def hasInflightJob (jobs : List TranslationJob) (pid sdid lang : String) : Bool :=
  jobs.any (inflightPred pid sdid lang)

/-- Freshly created TranslationJob row (lines 132-141). -/
def newTranslationJob (jid pid sdid lang provider : String) (pf : Bool) (now : Int) :
    TranslationJob :=
  { id := jid, project_id := pid, source_draft_id := sdid, target_language := lang,
    status := "pending", progress := 0, provider := provider,
    preserve_formatting := pf, result_draft_id := none, error := none,
    created_at := now, completed_at := none }

/-- Creation loop of `create_translations` (lines 119-145): one pass over
the requested languages, skipping any language already covered by an
in-flight job on the same source (each added job is visible to the checks
of the later iterations, as with an autoflushing session).  `freshId` feeds
the generated uuids; `k` counts the jobs created so far. -/
def createJobsLoop (pid sdid provider : String) (pf : Bool) (now : Int)
    (freshId : Nat → String) :
    List String → Nat → List TranslationJob → List TranslationJob
  | [], _, jobs => jobs
  | lang :: rest, k, jobs =>
    if hasInflightJob jobs pid sdid lang then
      createJobsLoop pid sdid provider pf now freshId rest k jobs
    else
      createJobsLoop pid sdid provider pf now freshId rest (k + 1)
        (jobs ++ [newTranslationJob (freshId k) pid sdid lang provider pf now])

/-- Request body of the create-translations endpoint. -/
structure CreateTranslationRequest where
  project_id : String
  source_draft_id : String
  target_languages : List String
  provider : String
  preserve_formatting : Bool

/-- create_translations endpoint (lines 92-159): validates project, source
draft, approval status and languages, then runs the creation loop; returns
the new job store. -/
def create_translations (req : CreateTranslationRequest) (projects : List Project)
    (drafts : List BookDraft) (jobs : List TranslationJob) (now : Int)
    (freshId : Nat → String) : Except ApiError (List TranslationJob) :=
  match projects.find? (fun p => p.id == req.project_id) with
  | none => Except.error (ApiError.notFound "项目不存在")
  | some _ =>
    match drafts.find? (fun d => d.id == req.source_draft_id) with
    | none => Except.error (ApiError.notFound "源草稿不存在")
    | some sd =>
      if sd.status ≠ "approved" then
        Except.error (ApiError.badRequest "源草稿尚未审阅完成")
      else if (req.target_languages.filter (fun l => !(SUPPORTED_LANGUAGES.contains l))) ≠ [] then
        Except.error (ApiError.badRequest "不支持的语言")
      else
        Except.ok (createJobsLoop req.project_id req.source_draft_id req.provider
          req.preserve_formatting now freshId req.target_languages 0 jobs)

/-- Place where an unhandled (task-fatal) error strikes inside
`run_translation_job`: before the chapter loop (client setup / initial
commits), or at the publishing commit.  Per-chapter and metadata
translation errors are caught by their own `except` blocks and never
abort the job. -/
inductive FatalPoint
  | beforeChapters
  | atFinalCommit
deriving DecidableEq, Repr

/-- Environment of one translation job run: per-chapter translate-call
outcomes (an `error` models a raised exception, caught per chapter), the
metadata-call outcomes, the fresh uuid of the result draft, the optional
unhandled error, and the completion clock. -/
structure TransEnv where
  translate_title : Nat → Except String String
  translate_content : Nat → Except String String
  translate_meta_title : Except String String
  translate_meta_desc : Except String String
  fresh_draft_id : String
  fatal : Option (FatalPoint × String)
  now : Int

/-- Chapter loop of `run_translation_job` (lines 183-223): a raise from
either translate call of a chapter keeps the original chapter and skips the
progress update for that iteration; success overrides `title` and `content`
and sets progress to `int((i + 1) / total * 100)`. -/
def translateChaptersLoop (env : TransEnv) (total : Nat) :
    Nat → Nat → List Chapter → Nat × List Chapter
  | _, prog, [] => (prog, [])
  | i, prog, ch :: rest =>
    match env.translate_title i, env.translate_content i with
    | Except.ok tt, Except.ok tc =>
      let prog1 := (i + 1) * 100 / total
      let res := translateChaptersLoop env total (i + 1) prog1 rest
      (res.1, { ch with title := tt, content := tc } :: res.2)
    | _, _ =>
      let res := translateChaptersLoop env total (i + 1) prog rest
      (res.1, ch :: res.2)

/-- Metadata block of `run_translation_job` (lines 226-257): the title and
description are translated only when truthy, and a raise anywhere in the
block reverts both to the source values (a single `except` covers both
calls). -/
def translateMetadata (env : TransEnv) (source : BookDraft) : Option String × Option String :=
  match (if pyTruthyStr source.title then some env.translate_meta_title else none),
        (if pyTruthyStr source.description then some env.translate_meta_desc else none) with
  | some (Except.error _), _ => (source.title, source.description)
  | _, some (Except.error _) => (source.title, source.description)
  | some (Except.ok v), some (Except.ok w) => (some v, some w)
  | some (Except.ok v), none => (some v, source.description)
  | none, some (Except.ok w) => (source.title, some w)
  | none, none => (source.title, source.description)

/-- Result BookDraft created on success (lines 260-275): a new non-primary
draft in the target language, carrying the translated chapters and
metadata. -/
def resultDraftOf (env : TransEnv) (job : TranslationJob) (source : BookDraft)
    (chs : List Chapter) (meta : Option String × Option String) : BookDraft :=
  { id := env.fresh_draft_id, project_id := job.project_id,
    language := job.target_language, version := 1, title := meta.1,
    subtitle := source.subtitle, author := source.author, description := meta.2,
    table_of_contents := source.table_of_contents, chapters := chs,
    front_matter := source.front_matter, back_matter := source.back_matter,
    status := "draft", is_primary := false }

/-- Store update for a mutated job row (primary keys are unique uuids). -/
def updateJob (jobs : List TranslationJob) (jid : String) (j1 : TranslationJob) :
    List TranslationJob :=
  jobs.map (fun j => if j.id == jid then j1 else j)

/-- run_translation_job (lines 162-295).  A missing id is a no-op.  The job
is moved to `running` with progress 0.  An unhandled error reaches the
outer `except` (lines 286-292), which reloads the job and marks it `failed`
with the error text: no result draft is added to the store and
`result_draft_id` is never written on that path (an error at the publishing
commit rolls the pending draft back).  On success the result draft is added
and the job is completed with `result_draft_id` linked, in one commit. -/
def run_translation_job (env : TransEnv) (jobs : List TranslationJob)
    (drafts : List BookDraft) (job_id : String) (source : BookDraft) :
    List TranslationJob × List BookDraft :=
  match jobs.find? (fun j => j.id == job_id) with
  | none => (jobs, drafts)
  | some job =>
    let job0 := { job with status := "running", progress := 0 }
    match env.fatal with
    | some (FatalPoint.beforeChapters, msg) =>
      (updateJob jobs job_id { job0 with status := "failed", error := some msg }, drafts)
    | some (FatalPoint.atFinalCommit, msg) =>
      let lp := translateChaptersLoop env source.chapters.length 0 0 source.chapters
      (updateJob jobs job_id
        { job0 with progress := lp.1, status := "failed", error := some msg }, drafts)
    | none =>
      let lp := translateChaptersLoop env source.chapters.length 0 0 source.chapters
      let meta := translateMetadata env source
      let draft := resultDraftOf env job0 source lp.2 meta
      let jobDone := { job0 with
                       progress := 100
                       status := "completed"
                       result_draft_id := some draft.id
                       completed_at := some env.now }
      (updateJob jobs job_id jobDone, drafts ++ [draft])

/-- delete_translation endpoint (lines 316-333): 404 on a missing id; if the
job carries a `result_draft_id` and that draft exists, the draft row is
deleted too; then the job row is deleted. -/
def delete_translation (jobs : List TranslationJob) (drafts : List BookDraft)
    (jid : String) : Except ApiError (List TranslationJob × List BookDraft) :=
  match jobs.find? (fun j => j.id == jid) with
  | none => Except.error (ApiError.notFound "翻译任务不存在")
  | some job =>
    let drafts1 := match job.result_draft_id with
      | some did =>
        match drafts.find? (fun d => d.id == did) with
        | some _ => drafts.filter (fun d => d.id != did)
        | none => drafts
      | none => drafts
    Except.ok (jobs.filter (fun j => j.id != jid), drafts1)

/-- Freshly created task row as built by the create endpoint
(`routers/tasks.py` lines 829-837). -/
def baseTask (ty : TaskType) : Task :=
  { id := "t1", project_id := "p1", task_type := ty,
    status := TaskStatus.pending, progress := 0, message := "等待处理",
    created_at := 0, started_at := none, completed_at := none, error := none,
    result_data := none, retry_count := 0, max_retries := some 3,
    last_heartbeat := none }

/-- Sample uploaded document with a file path. -/
def sampleDoc : Document :=
  { id := "d1", project_id := "p1", original_filename := "a.md",
    format := some "md", file_path := some "/docs/a.md", status := "pending",
    parsed_content := none }

/-- Parse environment with the service healthy, every parse succeeding and
no cancel interference. -/
def plainParseEnv : ParseEnv :=
  { service_available := true, parse_success := fun _ => true,
    parse_ast := fun _ => "ast", parse_metadata := fun _ => "meta",
    parse_error := fun _ => "", cancelFrom := none, cancel_time := 0 }

/-- Parse environment in which the cancel endpoint fires before the first
document's status re-read (at time 5). -/
def c1Env : ParseEnv :=
  { plainParseEnv with cancelFrom := some 0, cancel_time := 5 }

/-- Parse task that already completed an earlier execution. -/
def c2Task : Task :=
  { baseTask TaskType.parse with
    status := TaskStatus.completed
    progress := 100
    started_at := some 10
    completed_at := some 20 }

/-- Dispatch-then-scan cycle: the pending task is picked up by the executor
at `tstart` (moving to `running` with a heartbeat), the process dies, and
the recovery scan runs at `tscan`. -/
def c3Cycle (tstart tscan : Int) (t : Task) : Task :=
  scanTask tscan (runTaskStart tstart t)

/-- Task state after the first stale-recovery cycle. -/
def c3T1 : Task := c3Cycle 0 50 (baseTask TaskType.parse)

/-- Task state after the second stale-recovery cycle. -/
def c3T2 : Task := c3Cycle 100 150 c3T1

/-- Task state after the third stale-recovery cycle. -/
def c3T3 : Task := c3Cycle 200 250 c3T2

/-- Task state after the fourth stale detection. -/
def c3T4 : Task := c3Cycle 300 350 c3T3

/-- Project that has already advanced to the human review stage. -/
def c4Project : Project :=
  { id := "p1", name := "book", description := none,
    current_stage := "review", updated_at := 0 }

/-- Running parse task whose heartbeat was stamped at time 1. -/
def c5Task : Task :=
  { baseTask TaskType.parse with
    status := TaskStatus.running
    started_at := some 1
    last_heartbeat := some 1 }

/-- Failed task that has already exhausted its retry budget
(`retry_count = max_retries = 3`). -/
def c6Task : Task :=
  { baseTask TaskType.parse with
    status := TaskStatus.failed
    retry_count := 3
    error := some "boom"
    completed_at := some 30 }

/-- Project sitting in the translate stage. -/
def c7Project : Project :=
  { id := "p1", name := "book", description := none,
    current_stage := "translate", updated_at := 0 }

/-- Approved primary source draft with one chapter. -/
def c7SourceDraft : BookDraft :=
  { id := "s1", project_id := "p1", language := "zh", version := 1,
    title := some "书", subtitle := none, author := none, description := none,
    table_of_contents := none, chapters := [{ title := "ch1", content := "正文" }],
    front_matter := none, back_matter := none, status := "approved",
    is_primary := true }

/-- Create-translations request asking for English only. -/
def c7Req : CreateTranslationRequest :=
  { project_id := "p1", source_draft_id := "s1", target_languages := ["en"],
    provider := "deepl", preserve_formatting := true }

/-- Uuid source used by the concrete creation scenarios. -/
def c7Fresh : Nat → String := fun _ => "tj1"

/-- Job store after the first create-translations request. -/
def c7Jobs1 : List TranslationJob :=
  [newTranslationJob "tj1" "p1" "s1" "en" "deepl" true 0]

/-- Pending English translation job. -/
def c8Job : TranslationJob :=
  newTranslationJob "tj1" "p1" "s1" "en" "deepl" true 0

/-- Translation environment whose run hits an unhandled error before the
chapter loop. -/
def c8Env : TransEnv :=
  { translate_title := fun _ => Except.ok "T",
    translate_content := fun _ => Except.ok "C",
    translate_meta_title := Except.ok "MT",
    translate_meta_desc := Except.ok "MD",
    fresh_draft_id := "rd1",
    fatal := some (FatalPoint.beforeChapters, "connection lost"), now := 9 }

/-- Job row after the failed run of `c8Env`. -/
def c8FailedJob : TranslationJob :=
  { c8Job with status := "failed", error := some "connection lost" }

/-- Completed task, untouched by the recovery scanner. -/
def c9Done : Task :=
  { baseTask TaskType.clean with
    status := TaskStatus.completed
    progress := 100
    completed_at := some 40 }

/-- Translated (result) draft linked from a completed translation job. -/
def c10Draft : BookDraft :=
  { c7SourceDraft with
    id := "rd1"
    language := "en"
    is_primary := false
    status := "draft" }

/-- Completed translation job holding a `result_draft_id`. -/
def c10Job : TranslationJob :=
  { c8Job with
    status := "completed"
    progress := 100
    result_draft_id := some "rd1"
    completed_at := some 9 }

/-- Helper: the parse document loop never writes `last_heartbeat`. -/
theorem parseLoop_heartbeat (env : ParseEnv) (total : Nat) :
    ∀ (docs : List Document) (i : Nat) (task : Task),
      (parseLoop env total i task docs).1.last_heartbeat = task.last_heartbeat := by
  intro docs
  induction docs with
  | nil => intro i task; rfl
  | cons d rest ih =>
    intro i task
    cases hc : cancelObserved env.cancelFrom i with
    | true => simp [parseLoop, hc, applyCancel]
    | false => simp [parseLoop, hc, ih]

/-- Helper: `run_parse_task` never writes `last_heartbeat`. -/
theorem run_parse_task_heartbeat (env : ParseEnv) (task : Task) (docs : List Document) :
    (run_parse_task env task docs).1.last_heartbeat = task.last_heartbeat := by
  unfold run_parse_task
  by_cases h : docs.length = 0
  · simp [h]
  · cases hs : env.service_available <;> simp [h, hs, parseLoop_heartbeat]

/-- Helper: membership in an updated job store comes either from the new row
or from an old row with a different id. -/
theorem mem_updateJob (jobs : List TranslationJob) (jid : String)
    (jX j1 : TranslationJob) (h : j1 ∈ updateJob jobs jid jX) :
    j1 = jX ∨ (j1 ∈ jobs ∧ (j1.id == jid) = false) := by
  simp only [updateJob, List.mem_map] at h
  obtain ⟨a, ha, hfa⟩ := h
  by_cases hb : (a.id == jid) = true
  · left
    rw [if_pos hb] at hfa
    exact hfa.symm
  · right
    have hbf : (a.id == jid) = false := by
      cases hv : (a.id == jid) with
      | true => exact absurd hv hb
      | false => rfl
    rw [if_neg ?hne] at hfa
    case hne => simp [hbf]
    exact hfa ▸ ⟨ha, hfa ▸ hbf⟩

/-- Helper: the creation loop of `create_translations` preserves the
at-most-one-in-flight-job invariant for every (project, source, language)
triple. -/
theorem createJobsLoop_preserves_unique (pid0 sdid0 provider : String) (pf : Bool)
    (now : Int) (freshId : Nat → String) (pid sdid lang : String) :
    ∀ (langs : List String) (k : Nat) (jobs : List TranslationJob),
      inflightCount jobs pid sdid lang ≤ 1 →
      inflightCount (createJobsLoop pid0 sdid0 provider pf now freshId langs k jobs)
        pid sdid lang ≤ 1 := by
  intro langs
  induction langs with
  | nil =>
    intro k jobs h
    simpa [createJobsLoop] using h
  | cons lang0 rest ih =>
    intro k jobs h
    cases hex : hasInflightJob jobs pid0 sdid0 lang0 with
    | true => simpa [createJobsLoop, hex] using ih k jobs h
    | false =>
      have hstep : inflightCount
          (jobs ++ [newTranslationJob (freshId k) pid0 sdid0 lang0 provider pf now])
          pid sdid lang ≤ 1 := by
        rw [inflightCount, List.countP_append]
        by_cases hm : inflightPred pid sdid lang
            (newTranslationJob (freshId k) pid0 sdid0 lang0 provider pf now) = true
        · have hm1 := hm
          simp only [inflightPred, Bool.and_eq_true, beq_iff_eq] at hm1
          obtain ⟨⟨⟨h1, h2⟩, h3⟩, -⟩ := hm1
          have e1 : pid0 = pid := h1
          have e2 : sdid0 = sdid := h2
          have e3 : lang0 = lang := h3
          subst e1; subst e2; subst e3
          have hz : List.countP (inflightPred pid0 sdid0 lang0) jobs = 0 := by
            rw [List.countP_eq_zero]
            exact List.any_eq_false.mp hex
          rw [hz]
          simp [List.countP_cons, hm]
        · have h1 : inflightCount jobs pid sdid lang ≤ 1 := h
          rw [inflightCount] at h1
          simp [List.countP_cons, hm]
          omega
      simpa [createJobsLoop, hex] using ih (k + 1) _ hstep

/-- C1: the spec says a handler that observes `cancelled` on its per-unit
status re-read stops and the task stays `cancelled`.  The handler does stop
(the document below is left unprocessed and the refreshed task is
`cancelled`), but `run_task` then unconditionally finalises the task as
`completed` with `progress = 100`, overwriting the cancellation — the code
contradicts the cooperative-cancellation protocol it implements. -/
theorem C1_cancel_overwritten_by_completion :
    (run_parse_task c1Env (runTaskStart 1 (baseTask TaskType.parse)) [sampleDoc]).1.status
        = TaskStatus.cancelled ∧
    ((run_task_parse 1 9 c1Env (some (baseTask TaskType.parse)) none [sampleDoc]).1.map
        Task.status = some TaskStatus.completed) ∧
    ((run_task_parse 1 9 c1Env (some (baseTask TaskType.parse)) none [sampleDoc]).1.map
        Task.progress = some 100) ∧
    ((run_task_parse 1 9 c1Env (some (baseTask TaskType.parse)) none [sampleDoc]).1.map
        Task.completed_at = some (some 9)) ∧
    ((run_task_parse 1 9 c1Env (some (baseTask TaskType.parse)) none [sampleDoc]).2.2.map
        Document.status = ["pending"]) :=
  ⟨rfl, rfl, rfl, rfl, rfl⟩

/-- C2 counterexample: the executor has no pending-check — invoked on an
already-completed task it does not abort as a no-op: the task is moved back
through `running` and its `started_at` is overwritten. -/
theorem C2_counterexample :
    c2Task.status = TaskStatus.completed ∧
    ((run_task_parse 100 200 plainParseEnv (some c2Task) none []).1.map Task.started_at
        = some (some 100)) ∧
    c2Task.started_at = some 10 ∧
    (runTaskStart 100 c2Task).status = TaskStatus.running :=
  ⟨rfl, rfl, rfl, rfl⟩

/-- C2 amended: the executor aborts as a no-op only when no task record with
the given id exists; a loaded task is transitioned to `running` and executed
regardless of its prior status (the result is insensitive to that status),
so re-invocation on a non-pending task restarts it rather than no-oping. -/
theorem C2_no_pending_check (tstart tend : Int) (env : ParseEnv) (p : Option Project)
    (docs : List Document) :
    run_task_parse tstart tend env none p docs = (none, p, docs) ∧
    (∀ (task : Task) (s : TaskStatus),
      run_task_parse tstart tend env (some { task with status := s }) p docs
        = run_task_parse tstart tend env (some task) p docs) :=
  ⟨rfl, fun _ _ => rfl⟩

/-- C3: one recovery scan on a stale running task re-queues it as `pending`
with `retry_count` incremented and an explanatory message while
`retry_count < max_retries`, and otherwise terminally fails it with the
interruption error and `completed_at` stamped; concretely, with
`max_retries = 3`, three dispatch-and-scan cycles yield retry_count 1, 2, 3
in `pending` and the fourth stale detection yields `failed` with
retry_count still 3. -/
theorem C3_stale_recovery_law (now : Int) (t : Task)
    (hrun : t.status = TaskStatus.running)
    (hstale : isStaleAt now t.last_heartbeat = true) :
    ((t.retry_count < pyOrNat t.max_retries 3 →
        (scanTask now t).status = TaskStatus.pending ∧
        (scanTask now t).retry_count = t.retry_count + 1 ∧
        (scanTask now t).message
          = retryMessage (t.retry_count + 1) (pyOrNat t.max_retries 3)) ∧
      (pyOrNat t.max_retries 3 ≤ t.retry_count →
        (scanTask now t).status = TaskStatus.failed ∧
        (scanTask now t).retry_count = t.retry_count ∧
        (scanTask now t).completed_at = some now ∧
        (scanTask now t).error = some "任务多次中断，已达到最大重试次数")) ∧
    (c3T1.status = TaskStatus.pending ∧ c3T1.retry_count = 1 ∧
      c3T2.status = TaskStatus.pending ∧ c3T2.retry_count = 2 ∧
      c3T3.status = TaskStatus.pending ∧ c3T3.retry_count = 3 ∧
      c3T4.status = TaskStatus.failed ∧ c3T4.retry_count = 3 ∧
      c3T4.completed_at = some 350) := by
  constructor
  · constructor
    · intro hlt
      simp [scanTask, hrun, hstale, hlt]
    · intro hge
      have hnlt : ¬ t.retry_count < pyOrNat t.max_retries 3 := not_lt.mpr hge
      simp [scanTask, hrun, hstale, hnlt]
  · exact ⟨rfl, rfl, rfl, rfl, rfl, rfl, rfl, rfl, rfl⟩

/-- Witness for the stale-recovery law at a concrete freshly dispatched,
stale task. -/
theorem C3_stale_recovery_law_witness :
    (scanTask 50 (runTaskStart 0 (baseTask TaskType.parse))).status
        = TaskStatus.pending ∧
    (scanTask 50 (runTaskStart 0 (baseTask TaskType.parse))).retry_count = 1 := by
  have h := C3_stale_recovery_law 50 (runTaskStart 0 (baseTask TaskType.parse)) rfl rfl
  have h2 := h.1.1 (by decide)
  exact ⟨h2.1, h2.2.1⟩

/-- C4 counterexample: a parse task completing while the project is already
at the `review` stage regresses `current_stage` back to `clean` — the code
has no authoritative-task check before advancing the project. -/
theorem C4_counterexample :
    c4Project.current_stage = "review" ∧
    ((run_task_parse 1 2 plainParseEnv (some (baseTask TaskType.parse))
        (some c4Project) []).2.1.map Project.current_stage = some "clean") :=
  ⟨rfl, rfl⟩

/-- C4 amended: on completion the project's `current_stage` is computed from
the completed task's type alone — the next stage in the pipeline table,
`review` after `create`, `completed` after `generate` — independently of the
project's current stage, and `run_task` applies this update on every
completion with a project present; stale completions therefore do overwrite
(and can regress) the stage. -/
theorem C4_stage_set_from_task_type_only (ty : TaskType) (now : Int) (p q : Project) :
    (advanceProjectStage ty now p).current_stage = stageAfterCompletion ty ∧
    (advanceProjectStage ty now p).current_stage
        = (advanceProjectStage ty now q).current_stage ∧
    (∀ (tstart tend : Int) (env : ParseEnv) (t : Task) (docs : List Document),
      (run_task_parse tstart tend env (some t) (some p) docs).2.1
        = some (advanceProjectStage TaskType.parse tend p)) := by
  refine ⟨?_, ?_, fun _ _ _ _ _ => rfl⟩
  · cases ty <;> rfl
  · cases ty <;> rfl

/-- C5 counterexample: the parse handler fully processes a document (its
status becomes `parsed` and the run reaches `progress = 100`) without ever
refreshing `last_heartbeat` — the per-work-item refresh claimed for every
stage handler does not happen in the parse handler. -/
theorem C5_counterexample :
    (run_parse_task plainParseEnv c5Task [sampleDoc]).1.last_heartbeat
        = c5Task.last_heartbeat ∧
    c5Task.status = TaskStatus.running ∧
    c5Task.last_heartbeat = some 1 ∧
    ((run_parse_task plainParseEnv c5Task [sampleDoc]).2.map Document.status
        = ["parsed"]) ∧
    (run_parse_task plainParseEnv c5Task [sampleDoc]).1.progress = 100 :=
  ⟨rfl, rfl, rfl, rfl, rfl⟩

/-- C5 amended: `last_heartbeat` is non-null from the moment a task enters
`running` (stamped by the executor's start phase), is never decreased — the
parse handler leaves it untouched and the completion phase stamps the later
completion time — but it is not refreshed once per processed work item by
the parse handler. -/
theorem C5_heartbeat_amended (tstart tend : Int) (env : ParseEnv) (t : Task)
    (docs : List Document) (hmono : tstart ≤ tend) :
    ((runTaskStart tstart t).last_heartbeat = some tstart ∧
      (runTaskStart tstart t).status = TaskStatus.running) ∧
    (run_parse_task env t docs).1.last_heartbeat = t.last_heartbeat ∧
    ((run_task_parse tstart tend env (some t) none docs).1.map Task.last_heartbeat
        = some (some tend)) ∧
    (∀ h1 : Int, (runTaskStart tstart t).last_heartbeat = some h1 → h1 ≤ tend) := by
  refine ⟨⟨rfl, rfl⟩, run_parse_task_heartbeat env t docs, rfl, ?_⟩
  intro h1 hh
  have he : tstart = h1 := by
    simpa [runTaskStart] using hh
  exact he ▸ hmono

/-- Witness for the amended heartbeat behaviour at a concrete running
task. -/
theorem C5_heartbeat_amended_witness :
    (runTaskStart 3 c5Task).last_heartbeat = some 3 ∧
    (run_parse_task plainParseEnv c5Task []).1.last_heartbeat
        = c5Task.last_heartbeat ∧
    ((run_task_parse 3 7 plainParseEnv (some c5Task) none []).1.map Task.last_heartbeat
        = some (some 7)) := by
  have h := C5_heartbeat_amended 3 7 plainParseEnv c5Task [] (by decide)
  exact ⟨h.1.1, h.2.1, h.2.2.1⟩

/-- C6 counterexample: the explicit retry endpoint has no bound check — on a
failed task with `retry_count = max_retries = 3` it re-queues the task as
`pending` with `retry_count = 4`, violating `retry_count ≤ max_retries`
instead of forcing terminal `failed`. -/
theorem C6_counterexample :
    c6Task.status = TaskStatus.failed ∧
    c6Task.retry_count = 3 ∧
    c6Task.max_retries = some 3 ∧
    ((retry_task (some c6Task)).toOption.map Task.retry_count = some 4) ∧
    ((retry_task (some c6Task)).toOption.map Task.status = some TaskStatus.pending) ∧
    ¬ (4 ≤ pyOrNat c6Task.max_retries 3) :=
  ⟨rfl, rfl, rfl, rfl, rfl, by decide⟩

/-- C6 amended: the recovery scanner preserves `retry_count ≤ max_retries`
(a stale running task at the bound is forced to terminal `failed` rather
than re-queued), but the explicit retry endpoint increments `retry_count`
unconditionally and re-queues the task as `pending`, so sequences containing
explicit retries can exceed `max_retries`. -/
theorem C6_bound_enforced_by_scanner_only (now : Int) (t u : Task)
    (hb : t.retry_count ≤ pyOrNat t.max_retries 3)
    (hu : u.status = TaskStatus.failed ∨ u.status = TaskStatus.cancelled) :
    (scanTask now t).retry_count ≤ pyOrNat (scanTask now t).max_retries 3 ∧
    ((retry_task (some u)).toOption.map Task.retry_count = some (u.retry_count + 1)) ∧
    ((retry_task (some u)).toOption.map Task.status = some TaskStatus.pending) := by
  refine ⟨?_, ?_, ?_⟩
  · by_cases h1 : t.status = TaskStatus.running
    · cases h2 : isStaleAt now t.last_heartbeat with
      | true =>
        by_cases h3 : t.retry_count < pyOrNat t.max_retries 3
        · simp [scanTask, h1, h2, h3]
          omega
        · simp [scanTask, h1, h2, h3]
          exact hb
      | false =>
        simp [scanTask, h1, h2]
        exact hb
    · simp [scanTask, h1]
      exact hb
  · simp only [retry_task]
    rw [if_pos hu]
    rfl
  · simp only [retry_task]
    rw [if_pos hu]
    rfl

/-- Witness for the amended retry-bound behaviour at the concrete exhausted
task. -/
theorem C6_bound_enforced_by_scanner_only_witness :
    (scanTask 50 c6Task).retry_count ≤ pyOrNat (scanTask 50 c6Task).max_retries 3 ∧
    ((retry_task (some c6Task)).toOption.map Task.retry_count
        = some (c6Task.retry_count + 1)) ∧
    ((retry_task (some c6Task)).toOption.map Task.status = some TaskStatus.pending) :=
  C6_bound_enforced_by_scanner_only 50 c6Task c6Task (by decide) (Or.inl rfl)

/-- C7: the creation loop preserves the at-most-one-in-flight-job invariant
for every (project, source draft, language) triple, and concretely a second
create-translations request for the same (source, language) while the first
job is still pending leaves the store with exactly that one job. -/
theorem C7_translation_fanout_uniqueness (pid0 sdid0 provider pid sdid lang : String)
    (pf : Bool) (now : Int) (freshId : Nat → String) (langs : List String) (k : Nat)
    (jobs : List TranslationJob)
    (h : inflightCount jobs pid sdid lang ≤ 1) :
    inflightCount (createJobsLoop pid0 sdid0 provider pf now freshId langs k jobs)
        pid sdid lang ≤ 1 ∧
    (create_translations c7Req [c7Project] [c7SourceDraft] [] 0 c7Fresh
        = Except.ok c7Jobs1 ∧
      create_translations c7Req [c7Project] [c7SourceDraft] c7Jobs1 0 c7Fresh
        = Except.ok c7Jobs1 ∧
      inflightCount c7Jobs1 "p1" "s1" "en" = 1) :=
  ⟨createJobsLoop_preserves_unique pid0 sdid0 provider pf now freshId pid sdid lang
      langs k jobs h,
    rfl, rfl, rfl⟩

/-- Witness for the fan-out uniqueness at the concrete English request. -/
theorem C7_translation_fanout_uniqueness_witness :
    inflightCount (createJobsLoop "p1" "s1" "deepl" true 0 c7Fresh ["en"] 0 [])
        "p1" "s1" "en" ≤ 1 ∧
    inflightCount c7Jobs1 "p1" "s1" "en" = 1 := by
  have h := C7_translation_fanout_uniqueness "p1" "s1" "deepl" "p1" "s1" "en" true 0
    c7Fresh ["en"] 0 [] (by decide)
  exact ⟨h.1, h.2.2.2⟩

/-- C8: a translation job run hit by an unhandled error ends `failed` with
the error text recorded, its `result_draft_id` stays unset, and the draft
store is unchanged — no partial result artifact is published. -/
theorem C8_failure_publishes_no_partial_result (env : TransEnv)
    (jobs : List TranslationJob) (drafts : List BookDraft) (jid : String)
    (source : BookDraft) (job : TranslationJob) (pt : FatalPoint) (msg : String)
    (hfatal : env.fatal = some (pt, msg))
    (hfind : jobs.find? (fun j => j.id == jid) = some job)
    (hres : job.result_draft_id = none) :
    (run_translation_job env jobs drafts jid source).2 = drafts ∧
    (∀ j1 ∈ (run_translation_job env jobs drafts jid source).1,
      j1.id = jid →
        j1.status = "failed" ∧ j1.error = some msg ∧ j1.result_draft_id = none) := by
  unfold run_translation_job
  rw [hfind, hfatal]
  cases pt with
  | beforeChapters =>
    refine ⟨rfl, ?_⟩
    intro j1 hmem hid
    rcases mem_updateJob _ _ _ _ hmem with hX | ⟨-, hne⟩
    · subst hX
      exact ⟨rfl, rfl, hres⟩
    · rw [hid] at hne
      simp at hne
  | atFinalCommit =>
    refine ⟨rfl, ?_⟩
    intro j1 hmem hid
    rcases mem_updateJob _ _ _ _ hmem with hX | ⟨-, hne⟩
    · subst hX
      exact ⟨rfl, rfl, hres⟩
    · rw [hid] at hne
      simp at hne

/-- Witness for the failed-run behaviour at the concrete job whose run dies
before the chapter loop. -/
theorem C8_failure_publishes_no_partial_result_witness :
    (run_translation_job c8Env [c8Job] [] "tj1" c7SourceDraft).2
        = ([] : List BookDraft) ∧
    (c8FailedJob.status = "failed" ∧ c8FailedJob.error = some "connection lost" ∧
      c8FailedJob.result_draft_id = none) := by
  have h := C8_failure_publishes_no_partial_result c8Env [c8Job] [] "tj1"
    c7SourceDraft c8Job FatalPoint.beforeChapters "connection lost" rfl rfl rfl
  exact ⟨h.1, h.2 c8FailedJob (by decide) rfl⟩

/-- C9: the recovery scan leaves every non-`running` task unchanged, and it
is idempotent — per task and over the whole store, a second scan run in
immediate succession changes nothing. -/
theorem C9_recovery_frame_and_idempotent (now : Int) :
    (∀ t : Task, t.status ≠ TaskStatus.running → scanTask now t = t) ∧
    (∀ t : Task, scanTask now (scanTask now t) = scanTask now t) ∧
    (∀ ts : List Task,
      recover_interrupted_tasks now (recover_interrupted_tasks now ts)
        = recover_interrupted_tasks now ts) := by
  have hframe : ∀ t : Task, t.status ≠ TaskStatus.running → scanTask now t = t := by
    intro t h
    simp [scanTask, h]
  have hidem : ∀ t : Task, scanTask now (scanTask now t) = scanTask now t := by
    intro t
    by_cases h1 : t.status = TaskStatus.running
    · cases h2 : isStaleAt now t.last_heartbeat with
      | true =>
        by_cases h3 : t.retry_count < pyOrNat t.max_retries 3
        · apply hframe
          simp [scanTask, h1, h2, h3]
        · apply hframe
          simp [scanTask, h1, h2, h3]
      | false =>
        have ht : scanTask now t = t := by simp [scanTask, h1, h2]
        rw [ht]
        exact ht
    · have ht := hframe t h1
      rw [ht]
      exact ht
  refine ⟨hframe, hidem, ?_⟩
  intro ts
  unfold recover_interrupted_tasks
  rw [List.map_map]
  exact List.map_congr_left (fun t _ => hidem t)

/-- Witness for the scanner frame condition and idempotence at a concrete
store holding a completed and a live running task. -/
theorem C9_recovery_frame_and_idempotent_witness :
    scanTask 10 c9Done = c9Done ∧
    recover_interrupted_tasks 10 (recover_interrupted_tasks 10 [c9Done, c5Task])
      = recover_interrupted_tasks 10 [c9Done, c5Task] := by
  have h := C9_recovery_frame_and_idempotent 10
  exact ⟨h.1 c9Done (by decide), h.2.2 [c9Done, c5Task]⟩

/-- C10: deleting a translation job whose `result_draft_id` is set removes
the referenced result draft row together with the job row: neither survives
in the returned stores. -/
theorem C10_delete_cascades_result_draft (jobs : List TranslationJob)
    (drafts : List BookDraft) (jid did : String) (job : TranslationJob)
    (hfind : jobs.find? (fun j => j.id == jid) = some job)
    (hdid : job.result_draft_id = some did) :
    delete_translation jobs drafts jid
      = Except.ok (jobs.filter (fun j => j.id != jid),
                   drafts.filter (fun d => d.id != did)) ∧
    (∀ d ∈ drafts.filter (fun d => d.id != did), ¬ d.id = did) ∧
    (∀ j ∈ jobs.filter (fun j => j.id != jid), ¬ j.id = jid) := by
  refine ⟨?_, ?_, ?_⟩
  · simp only [delete_translation, hfind, hdid]
    cases hf : drafts.find? (fun d => d.id == did) with
    | some d0 => rfl
    | none =>
      have hall : ∀ d ∈ drafts, ¬ ((d.id == did) = true) := List.find?_eq_none.mp hf
      have hfix : drafts.filter (fun d => d.id != did) = drafts := by
        rw [List.filter_eq_self]
        intro a ha
        have hcon := hall a ha
        cases hv : (a.id == did) with
        | true => exact absurd hv hcon
        | false => simp [bne, hv]
      rw [hfix]
  · intro d hd
    have h2 := (List.mem_filter.mp hd).2
    intro heq
    rw [heq] at h2
    simp at h2
  · intro j hj
    have h2 := (List.mem_filter.mp hj).2
    intro heq
    rw [heq] at h2
    simp at h2

/-- Witness for the cascade delete at a concrete completed job and its
linked draft. -/
theorem C10_delete_cascades_result_draft_witness :
    delete_translation [c10Job] [c10Draft] "tj1"
      = Except.ok (([c10Job].filter (fun j => j.id != "tj1")),
                   ([c10Draft].filter (fun d => d.id != "rd1"))) :=
  (C10_delete_cascades_result_draft [c10Job] [c10Draft] "tj1" "rd1" c10Job rfl rfl).1

end Doc2Book
